import Mathlib

/-!
Verification of the "Mishtaken" (Dira Behanaha) apartment price calculator.

The repository contains two copies of one pure pricing function,
`calculate_apartment_price`, in `src/cli/calculate_mishtaken_price.py` and
`src/streamlit/calculate_mishtaken_price_streamlit_app.py`, plus a CLI
adapter (`main`).  We embed both copies shallowly: every local variable of
the Python function becomes a Lean definition over `ℚ` (the function's
arithmetic is plain decimal arithmetic; we work in exact rationals), and the
returned dict becomes a `PriceResult` structure.  The CLI adapter's
validation and exit-code behaviour is embedded as `cliMain`.
-/

namespace Mishtaken

/-- Python's `str.lower()` as used on `area_type` (the source only ever
compares against the ASCII literal `"periphery"`): lower-case every character,
defined structurally over the character list so it evaluates in proofs. -/
def lower (s : String) : String := String.mk (s.data.map Char.toLower)

/-- The eight arguments of `calculate_apartment_price` (both copies share the
same signature and defaults).  `area_type` is a raw string, as in the source,
which compares `area_type.lower() == "periphery"`. -/
structure PriceInput where
  main_price_per_meter : ℚ
  current_price_per_meter : ℚ
  apartment_size : ℚ
  balcony_size : ℚ
  storage_room_size : ℚ
  parking_spaces : ℕ
  area_type : String
  vat_rate : ℚ
deriving DecidableEq

/-- The dict returned by `calculate_apartment_price`: keys
`final_price_including_vat`, `discount_amount`, `effective_area`, and the
`discount_type` label recorded inside `calculation_details`
(`price_calculations["discount_type"]`).  The remaining entries of
`calculation_details` are formatted copies of the intermediates defined
below. -/
structure PriceResult where
  final_price_including_vat : ℚ
  discount_amount : ℚ
  effective_area : ℚ
  discount_type : String
deriving DecidableEq

namespace CLI

/-- Step 1: `main_price_with_vat = main_price_per_meter * (1 + vat_rate)`. -/
def main_price_with_vat (i : PriceInput) : ℚ :=
  i.main_price_per_meter * (1 + i.vat_rate)

/-- Step 1: `current_price_with_vat = current_price_per_meter * (1 + vat_rate)`. -/
def current_price_with_vat (i : PriceInput) : ℚ :=
  i.current_price_per_meter * (1 + i.vat_rate)

/-- Step 2: `apartment_effective = apartment_size * 1.0`. -/
def apartment_effective (i : PriceInput) : ℚ := i.apartment_size * 1.0

/-- Step 2: `balcony_effective = balcony_size * 0.3`. -/
def balcony_effective (i : PriceInput) : ℚ := i.balcony_size * 0.3

/-- Step 2: `storage_effective = storage_room_size * 0.4`. -/
def storage_effective (i : PriceInput) : ℚ := i.storage_room_size * 0.4

/-- Step 2: `parking_effective = parking_spaces * 2.0`. -/
def parking_effective (i : PriceInput) : ℚ := (i.parking_spaces : ℚ) * 2.0

/-- Step 2: `total_effective_area`, the sum of the four weighted components. -/
def total_effective_area (i : PriceInput) : ℚ :=
  apartment_effective i + balcony_effective i + storage_effective i + parking_effective i

/-- Step 3: `main_total_price = main_price_with_vat * total_effective_area`. -/
def main_total_price (i : PriceInput) : ℚ :=
  main_price_with_vat i * total_effective_area i

/-- Step 3: `current_total_price = current_price_with_vat * total_effective_area`. -/
def current_total_price (i : PriceInput) : ℚ :=
  current_price_with_vat i * total_effective_area i

/-- Step 4: `discounted_main_price = main_total_price * 0.75`. -/
def discounted_main_price (i : PriceInput) : ℚ := main_total_price i * 0.75

/-- Step 5: `potential_discount = current_total_price - discounted_main_price`. -/
def potential_discount (i : PriceInput) : ℚ :=
  current_total_price i - discounted_main_price i

/-- `max_discount`: 600000 if `area_type.lower() == "periphery"`, else 500000. -/
def max_discount (i : PriceInput) : ℚ :=
  if lower i.area_type = "periphery" then 600000 else 500000

/-- Step 6, `final_discounted_price`: capped price when
`potential_discount > max_discount`, otherwise the 25%-discounted main price. -/
def final_discounted_price (i : PriceInput) : ℚ :=
  if potential_discount i > max_discount i then current_total_price i - max_discount i
  else discounted_main_price i

/-- Step 6, the value assigned to `actual_discount` before the step-7
override. -/
def actual_discount_pre (i : PriceInput) : ℚ :=
  if potential_discount i > max_discount i then max_discount i
  else potential_discount i

/-- Step 6, the value assigned to `discount_type` before the step-7 override
(CLI labels). -/
def discount_type_pre (i : PriceInput) : String :=
  if potential_discount i > max_discount i then "capped" else "25_percent"

/-- Step 7: `final_price = min(final_discounted_price, main_total_price)`. -/
def final_price (i : PriceInput) : ℚ :=
  min (final_discounted_price i) (main_total_price i)

/-- The value of `actual_discount` after the `final_price == main_total_price`
override. -/
def actual_discount (i : PriceInput) : ℚ :=
  if final_price i = main_total_price i then current_total_price i - main_total_price i
  else actual_discount_pre i

/-- The value of `discount_type` after the `final_price == main_total_price`
override (CLI labels). -/
def discount_type (i : PriceInput) : String :=
  if final_price i = main_total_price i then "main_price_limit"
  else discount_type_pre i

/-- The CLI copy of `calculate_apartment_price`: the returned dict. -/
def calculate_apartment_price (i : PriceInput) : PriceResult :=
  ⟨final_price i, actual_discount i, total_effective_area i, discount_type i⟩

end CLI

namespace SL

/-- Step 1 (Streamlit copy): `main_price_with_vat`. -/
def main_price_with_vat (i : PriceInput) : ℚ :=
  i.main_price_per_meter * (1 + i.vat_rate)

/-- Step 1 (Streamlit copy): `current_price_with_vat`. -/
def current_price_with_vat (i : PriceInput) : ℚ :=
  i.current_price_per_meter * (1 + i.vat_rate)

/-- Step 2 (Streamlit copy): `apartment_effective`. -/
def apartment_effective (i : PriceInput) : ℚ := i.apartment_size * 1.0

/-- Step 2 (Streamlit copy): `balcony_effective`. -/
def balcony_effective (i : PriceInput) : ℚ := i.balcony_size * 0.3

/-- Step 2 (Streamlit copy): `storage_effective`. -/
def storage_effective (i : PriceInput) : ℚ := i.storage_room_size * 0.4

/-- Step 2 (Streamlit copy): `parking_effective`. -/
def parking_effective (i : PriceInput) : ℚ := (i.parking_spaces : ℚ) * 2.0

/-- Step 2 (Streamlit copy): `total_effective_area`. -/
def total_effective_area (i : PriceInput) : ℚ :=
  apartment_effective i + balcony_effective i + storage_effective i + parking_effective i

/-- Step 3 (Streamlit copy): `main_total_price`. -/
def main_total_price (i : PriceInput) : ℚ :=
  main_price_with_vat i * total_effective_area i

/-- Step 3 (Streamlit copy): `current_total_price`. -/
def current_total_price (i : PriceInput) : ℚ :=
  current_price_with_vat i * total_effective_area i

/-- Step 4 (Streamlit copy): `discounted_main_price`. -/
def discounted_main_price (i : PriceInput) : ℚ := main_total_price i * 0.75

/-- Step 5 (Streamlit copy): `potential_discount`. -/
def potential_discount (i : PriceInput) : ℚ :=
  current_total_price i - discounted_main_price i

/-- Streamlit copy: `max_discount` by area type. -/
def max_discount (i : PriceInput) : ℚ :=
  if lower i.area_type = "periphery" then 600000 else 500000

/-- Step 6 (Streamlit copy): `final_discounted_price`. -/
def final_discounted_price (i : PriceInput) : ℚ :=
  if potential_discount i > max_discount i then current_total_price i - max_discount i
  else discounted_main_price i

/-- Step 6 (Streamlit copy): `actual_discount` before the override. -/
def actual_discount_pre (i : PriceInput) : ℚ :=
  if potential_discount i > max_discount i then max_discount i
  else potential_discount i

/-- Step 6 (Streamlit copy): `discount_type` before the override — the
Streamlit file uses display labels instead of the CLI's short codes. -/
def discount_type_pre (i : PriceInput) : String :=
  if potential_discount i > max_discount i then "Capped at Maximum"
  else "25% Discount Applied"

/-- Step 7 (Streamlit copy): `final_price`. -/
def final_price (i : PriceInput) : ℚ :=
  min (final_discounted_price i) (main_total_price i)

/-- Streamlit copy: `actual_discount` after the override. -/
def actual_discount (i : PriceInput) : ℚ :=
  if final_price i = main_total_price i then current_total_price i - main_total_price i
  else actual_discount_pre i

/-- Streamlit copy: `discount_type` after the override. -/
def discount_type (i : PriceInput) : String :=
  if final_price i = main_total_price i then "Limited by Main Price"
  else discount_type_pre i

/-- The Streamlit copy of `calculate_apartment_price`. -/
def calculate_apartment_price (i : PriceInput) : PriceResult :=
  ⟨final_price i, actual_discount i, total_effective_area i, discount_type i⟩

end SL

/-- Maps each CLI `discount_type` code to the Streamlit display label of the
same branch. -/
def label_of (s : String) : String :=
  if s = "capped" then "Capped at Maximum"
  else if s = "25_percent" then "25% Discount Applied"
  else if s = "main_price_limit" then "Limited by Main Price"
  else s

/-- The arguments of the CLI `main` after argparse: `--main-price`,
`--current-price` (required floats), the optional size/parking/area/vat flags
with their defaults.  `vat_rate` is a percentage here (default 18.0), as on
the command line. -/
structure CliArgs where
  main_price : ℚ
  current_price : ℚ
  apartment_size : ℚ
  balcony_size : ℚ
  storage_size : ℚ
  parking_spaces : ℕ
  area_type : String
  vat_rate : ℚ
deriving DecidableEq

/-- The `PriceInput` that `main` passes to `calculate_apartment_price` once
validation passed: the parsed flags with `vat_rate_decimal = vat_rate / 100.0`. -/
def cliResult (a : CliArgs) : PriceResult :=
  CLI.calculate_apartment_price
    ⟨a.main_price, a.current_price, a.apartment_size, a.balcony_size,
     a.storage_size, a.parking_spaces, a.area_type, a.vat_rate / 100.0⟩

/-- The CLI `main` after argument parsing: the three validation checks each
`sys.exit(1)` without a result, otherwise the calculation runs (it is total
arithmetic, so the `except` path cannot fire) and the process ends with exit
code 0.  Returned as (exit code, produced result). -/
def cliMain (a : CliArgs) : ℕ × Option PriceResult :=
  if a.main_price ≤ 0 ∨ a.current_price ≤ 0 then (1, none)
  else if a.apartment_size ≤ 0 then (1, none)
  else if a.vat_rate < 0 then (1, none)
  else (0, some (cliResult a))

/-- The disjunction of the CLI `main`'s three validation failures. -/
def cliInvalid (a : CliArgs) : Prop :=
  a.main_price ≤ 0 ∨ a.current_price ≤ 0 ∨ a.apartment_size ≤ 0 ∨ a.vat_rate < 0

instance (a : CliArgs) : Decidable (cliInvalid a) := by
  unfold cliInvalid; infer_instance

/-- The spec's `PriceInput` validity invariant (§3): positive prices and
sizes, non-negative VAT rate (`parking_spaces : ℕ` is non-negative by type). -/
def ValidInput (i : PriceInput) : Prop :=
  0 < i.main_price_per_meter ∧ 0 < i.current_price_per_meter ∧
  0 < i.apartment_size ∧ 0 < i.balcony_size ∧ 0 < i.storage_room_size ∧
  0 ≤ i.vat_rate

instance (i : PriceInput) : Decidable (ValidInput i) := by
  unfold ValidInput; infer_instance

/-- The documented default input: `main=25000, current=23000, apartment=125,
balcony=12, storage=6, parking=2, areaType=demand, vat=0.18`. -/
def defaultInput : PriceInput := ⟨25000, 23000, 125, 12, 6, 2, "demand", 0.18⟩

/-- A valid input whose current price is far below the discounted main price,
so `potential_discount` is negative. -/
def negDiscountInput : PriceInput := ⟨25000, 10000, 125, 12, 6, 2, "demand", 0.18⟩

/-- An input at the cap boundary: effective area 100, `main_total = 400000`,
`current_total = 800000`, `potential_discount = 500000 = max_discount`. -/
def boundaryInput : PriceInput := ⟨4000, 8000, 100, 0, 0, 0, "demand", 0⟩

/-- An input on which the main-price floor wins: `main_total = 100000`,
`current_total = 700000`, capped `final_discounted = 200000 > main_total`. -/
def overrideInput : PriceInput := ⟨1000, 7000, 100, 0, 0, 0, "demand", 0⟩

/-- Valid CLI arguments matching the documented defaults (`--vat-rate` is the
percentage 18.0). -/
def validArgs : CliArgs := ⟨25000, 23000, 125, 12, 6, 2, "demand", 18⟩

/-- C1: the final price returned by `calculate_apartment_price` is
`min(final_discounted_price, main_total_price)`, hence never exceeds the
VAT-inclusive main total price. -/
theorem final_price_floor (i : PriceInput) :
    (CLI.calculate_apartment_price i).final_price_including_vat =
      min (CLI.final_discounted_price i) (CLI.main_total_price i) ∧
    (CLI.calculate_apartment_price i).final_price_including_vat ≤ CLI.main_total_price i :=
  ⟨rfl, min_le_right _ _⟩

/-- C2: the effective area returned by `calculate_apartment_price` is exactly
the weighted sum `apartment + 0.3·balcony + 0.4·storage + 2.0·parking`. -/
theorem effective_area_weighted_sum (i : PriceInput) :
    (CLI.calculate_apartment_price i).effective_area =
      i.apartment_size + 0.3 * i.balcony_size + 0.4 * i.storage_room_size +
        2.0 * (i.parking_spaces : ℚ) := by
  show CLI.total_effective_area i = _
  unfold CLI.total_effective_area CLI.apartment_effective CLI.balcony_effective
    CLI.storage_effective CLI.parking_effective
  ring

/-- C3: `max_discount` is 600000 exactly when the lower-cased area type is
"periphery" and 500000 otherwise; the capped branch (capped price, discount
`max_discount`, label "capped") is taken iff `potential_discount >
max_discount` strictly, so equality takes the 25%-discount branch. -/
theorem discount_cap_policy (i : PriceInput) :
    (lower i.area_type = "periphery" → CLI.max_discount i = 600000) ∧
    (lower i.area_type ≠ "periphery" → CLI.max_discount i = 500000) ∧
    ((CLI.potential_discount i > CLI.max_discount i) ↔
      CLI.final_discounted_price i = CLI.current_total_price i - CLI.max_discount i ∧
      CLI.actual_discount_pre i = CLI.max_discount i ∧
      CLI.discount_type_pre i = "capped") ∧
    (CLI.potential_discount i = CLI.max_discount i →
      CLI.final_discounted_price i = CLI.discounted_main_price i ∧
      CLI.actual_discount_pre i = CLI.potential_discount i ∧
      CLI.discount_type_pre i = "25_percent") := by
  refine ⟨fun h => by simp [CLI.max_discount, h], fun h => by simp [CLI.max_discount, h],
    ⟨fun hgt => ?_, fun ⟨_, _, h3⟩ => ?_⟩, fun heq => ?_⟩
  · simp [CLI.final_discounted_price, CLI.actual_discount_pre, CLI.discount_type_pre,
      if_pos hgt]
  · by_contra hng
    simp only [CLI.discount_type_pre, if_neg hng] at h3
    exact absurd h3 (by decide)
  · have hng : ¬ (CLI.potential_discount i > CLI.max_discount i) := by
      rw [heq]; exact lt_irrefl _
    simp [CLI.final_discounted_price, CLI.actual_discount_pre, CLI.discount_type_pre,
      if_neg hng]

/-- Witness for C3 at the exact cap boundary: `boundaryInput` is a demand-area
input with `potential_discount = 500000 = max_discount`, and the 25%-discount
branch is taken. -/
theorem discount_cap_policy_witness :
    CLI.max_discount boundaryInput = 500000 ∧
    CLI.potential_discount boundaryInput = CLI.max_discount boundaryInput ∧
    CLI.final_discounted_price boundaryInput = CLI.discounted_main_price boundaryInput ∧
    CLI.discount_type_pre boundaryInput = "25_percent" := by
  have heq : CLI.potential_discount boundaryInput = CLI.max_discount boundaryInput := by
    norm_num +decide [CLI.potential_discount, CLI.current_total_price,
      CLI.discounted_main_price, CLI.main_total_price, CLI.main_price_with_vat,
      CLI.current_price_with_vat, CLI.total_effective_area, CLI.apartment_effective,
      CLI.balcony_effective, CLI.storage_effective, CLI.parking_effective,
      CLI.max_discount, boundaryInput, lower]
  exact ⟨(discount_cap_policy boundaryInput).2.1 (by decide), heq,
    ((discount_cap_policy boundaryInput).2.2.2 heq).1,
    ((discount_cap_policy boundaryInput).2.2.2 heq).2.2⟩

/-- C4: when the min in step 8 lands exactly on `main_total_price`, the
returned discount is overridden to `current_total_price - main_total_price`
with label "main_price_limit"; otherwise the step-7 discount and label are
returned unchanged. -/
theorem main_price_limit_override (i : PriceInput) :
    (CLI.final_price i = CLI.main_total_price i →
      (CLI.calculate_apartment_price i).discount_amount =
        CLI.current_total_price i - CLI.main_total_price i ∧
      (CLI.calculate_apartment_price i).discount_type = "main_price_limit") ∧
    (CLI.final_price i ≠ CLI.main_total_price i →
      (CLI.calculate_apartment_price i).discount_amount = CLI.actual_discount_pre i ∧
      (CLI.calculate_apartment_price i).discount_type = CLI.discount_type_pre i) := by
  constructor
  · intro h
    show CLI.actual_discount i = _ ∧ CLI.discount_type i = _
    simp [CLI.actual_discount, CLI.discount_type, if_pos h]
  · intro h
    show CLI.actual_discount i = _ ∧ CLI.discount_type i = _
    simp [CLI.actual_discount, CLI.discount_type, if_neg h]

/-- Witness for C4: on `overrideInput` the floor wins exactly
(`final_price = main_total_price = 100000`), and the override fires. -/
theorem main_price_limit_override_witness :
    (CLI.calculate_apartment_price overrideInput).discount_amount =
      CLI.current_total_price overrideInput - CLI.main_total_price overrideInput ∧
    (CLI.calculate_apartment_price overrideInput).discount_type = "main_price_limit" :=
  (main_price_limit_override overrideInput).1 (by
    norm_num +decide [CLI.final_price, CLI.final_discounted_price, CLI.potential_discount,
      CLI.current_total_price, CLI.discounted_main_price, CLI.main_total_price,
      CLI.main_price_with_vat, CLI.current_price_with_vat, CLI.total_effective_area,
      CLI.apartment_effective, CLI.balcony_effective, CLI.storage_effective,
      CLI.parking_effective, CLI.max_discount, overrideInput, lower])

/-- C5 counterexample: `negDiscountInput` is a valid input (positive prices
and sizes, non-negative VAT) on which the returned `discount_amount` is
negative (it equals `potential_discount = -1393875`). -/
theorem discount_amount_negative_counterexample :
    ValidInput negDiscountInput ∧
    (CLI.calculate_apartment_price negDiscountInput).discount_amount < 0 := by
  constructor
  · unfold ValidInput
    norm_num [negDiscountInput]
  · show CLI.actual_discount negDiscountInput < 0
    norm_num +decide [CLI.actual_discount, CLI.actual_discount_pre, CLI.final_price,
      CLI.final_discounted_price, CLI.potential_discount, CLI.current_total_price,
      CLI.discounted_main_price, CLI.main_total_price, CLI.main_price_with_vat,
      CLI.current_price_with_vat, CLI.total_effective_area, CLI.apartment_effective,
      CLI.balcony_effective, CLI.storage_effective, CLI.parking_effective,
      CLI.max_discount, negDiscountInput, lower]

/-- C5 amended: for every valid input whose potential discount is
non-negative (current total at least the 25%-discounted main total), the
returned `discount_amount` is non-negative.  Without that extra hypothesis
the 25%-discount branch returns the negative `potential_discount` itself. -/
theorem discount_amount_nonneg (i : PriceInput) (_hv : ValidInput i)
    (hp : 0 ≤ CLI.potential_discount i) :
    0 ≤ (CLI.calculate_apartment_price i).discount_amount := by
  have hmax : 0 < CLI.max_discount i := by
    unfold CLI.max_discount
    split <;> norm_num
  show 0 ≤ CLI.actual_discount i
  unfold CLI.actual_discount
  split
  case isTrue h =>
    have hle : CLI.main_total_price i ≤ CLI.final_discounted_price i :=
      min_eq_right_iff.mp h
    unfold CLI.final_discounted_price at hle
    split at hle
    case isTrue hc => linarith
    case isFalse hc =>
      unfold CLI.potential_discount at hp
      linarith
  case isFalse h =>
    unfold CLI.actual_discount_pre
    split
    case isTrue hc => linarith
    case isFalse hc => exact hp

/-- Witness for the amended C5: the documented default input is valid, has
non-negative potential discount, and gets a non-negative discount. -/
theorem discount_amount_nonneg_witness :
    0 ≤ (CLI.calculate_apartment_price defaultInput).discount_amount :=
  discount_amount_nonneg defaultInput
    (by unfold ValidInput; norm_num [defaultInput])
    (by norm_num [CLI.potential_discount, CLI.current_total_price,
      CLI.discounted_main_price, CLI.main_total_price, CLI.main_price_with_vat,
      CLI.current_price_with_vat, CLI.total_effective_area, CLI.apartment_effective,
      CLI.balcony_effective, CLI.storage_effective, CLI.parking_effective, defaultInput])

/-- C6: on the documented default input all intermediates and outputs take
exactly the documented values, with the capped discount branch. -/
theorem default_scenario_values :
    CLI.main_price_with_vat defaultInput = 29500 ∧
    CLI.current_price_with_vat defaultInput = 27140 ∧
    (CLI.calculate_apartment_price defaultInput).effective_area = 135 ∧
    CLI.main_total_price defaultInput = 3982500 ∧
    CLI.current_total_price defaultInput = 3663900 ∧
    CLI.discounted_main_price defaultInput = 2986875 ∧
    CLI.potential_discount defaultInput = 677025 ∧
    (CLI.calculate_apartment_price defaultInput).final_price_including_vat = 3163900 ∧
    (CLI.calculate_apartment_price defaultInput).discount_amount = 500000 ∧
    (CLI.calculate_apartment_price defaultInput).discount_type = "capped" := by
  refine ⟨?_, ?_, ?_, ?_, ?_, ?_, ?_, ?_, ?_, ?_⟩ <;>
    norm_num +decide [CLI.calculate_apartment_price, CLI.final_price, CLI.actual_discount,
      CLI.discount_type, CLI.discount_type_pre, CLI.actual_discount_pre,
      CLI.final_discounted_price, CLI.max_discount, CLI.potential_discount,
      CLI.discounted_main_price, CLI.current_total_price, CLI.main_total_price,
      CLI.current_price_with_vat, CLI.main_price_with_vat, CLI.total_effective_area,
      CLI.apartment_effective, CLI.balcony_effective, CLI.storage_effective,
      CLI.parking_effective, defaultInput, lower]

/-- C7: the pricing function is deterministic — it is a pure function of its
arguments, so identical inputs give identical `PriceResult`s. -/
theorem calculate_deterministic (i j : PriceInput) (h : i = j) :
    CLI.calculate_apartment_price i = CLI.calculate_apartment_price j := by
  rw [h]

/-- Witness for C7 at the documented default input. -/
theorem calculate_deterministic_witness :
    CLI.calculate_apartment_price defaultInput = CLI.calculate_apartment_price defaultInput :=
  calculate_deterministic defaultInput defaultInput rfl

/-- C8: the CLI adapter exits with code 1 and no result exactly when a price
is non-positive, the apartment size is non-positive, or the VAT percentage is
negative; on every other input it exits 0 with the computed result (the
calculation itself is total, so the except path never fires). -/
theorem cli_exit_codes (a : CliArgs) :
    (cliMain a = (1, none) ↔ cliInvalid a) ∧
    (¬ cliInvalid a → cliMain a = (0, some (cliResult a))) := by
  by_cases hv : cliInvalid a
  · have hm : cliMain a = (1, none) := by
      unfold cliMain
      rcases hv with h | h | h | h
      · rw [if_pos (Or.inl h)]
      · rw [if_pos (Or.inr h)]
      · by_cases h1 : a.main_price ≤ 0 ∨ a.current_price ≤ 0
        · rw [if_pos h1]
        · rw [if_neg h1, if_pos h]
      · by_cases h1 : a.main_price ≤ 0 ∨ a.current_price ≤ 0
        · rw [if_pos h1]
        · by_cases h2 : a.apartment_size ≤ 0
          · rw [if_neg h1, if_pos h2]
          · rw [if_neg h1, if_neg h2, if_pos h]
    exact ⟨by simp [hm, hv], fun hnv => absurd hv hnv⟩
  · have hv2 := hv
    unfold cliInvalid at hv2
    push_neg at hv2
    obtain ⟨v1, v2, v3, v4⟩ := hv2
    have hm : cliMain a = (0, some (cliResult a)) := by
      unfold cliMain
      rw [if_neg (not_or.mpr ⟨not_le.mpr v1, not_le.mpr v2⟩), if_neg (not_le.mpr v3),
        if_neg (not_lt.mpr v4)]
    exact ⟨by simp [hm, hv], fun _ => hm⟩

/-- Witness for C8: on the documented default arguments validation passes and
the adapter returns exit code 0 with a result. -/
theorem cli_exit_codes_witness :
    cliMain validArgs = (0, some (cliResult validArgs)) :=
  (cli_exit_codes validArgs).2 (by unfold cliInvalid; norm_num [validArgs])

/-- C9: the CLI and Streamlit copies of `calculate_apartment_price` agree on
every numeric output and intermediate, and their `discount_type` labels
correspond branch-for-branch under `label_of`. -/
theorem cli_streamlit_equivalent (i : PriceInput) :
    (SL.calculate_apartment_price i).final_price_including_vat =
      (CLI.calculate_apartment_price i).final_price_including_vat ∧
    (SL.calculate_apartment_price i).discount_amount =
      (CLI.calculate_apartment_price i).discount_amount ∧
    (SL.calculate_apartment_price i).effective_area =
      (CLI.calculate_apartment_price i).effective_area ∧
    SL.main_price_with_vat i = CLI.main_price_with_vat i ∧
    SL.current_price_with_vat i = CLI.current_price_with_vat i ∧
    SL.main_total_price i = CLI.main_total_price i ∧
    SL.current_total_price i = CLI.current_total_price i ∧
    SL.discounted_main_price i = CLI.discounted_main_price i ∧
    SL.potential_discount i = CLI.potential_discount i ∧
    SL.max_discount i = CLI.max_discount i ∧
    (SL.calculate_apartment_price i).discount_type =
      label_of ((CLI.calculate_apartment_price i).discount_type) := by
  refine ⟨rfl, rfl, rfl, rfl, rfl, rfl, rfl, rfl, rfl, rfl, ?_⟩
  show SL.discount_type i = label_of (CLI.discount_type i)
  have hfp : SL.final_price i = CLI.final_price i := rfl
  have hmt : SL.main_total_price i = CLI.main_total_price i := rfl
  have hpd : SL.potential_discount i = CLI.potential_discount i := rfl
  have hmd : SL.max_discount i = CLI.max_discount i := rfl
  unfold SL.discount_type CLI.discount_type SL.discount_type_pre CLI.discount_type_pre
  rw [hfp, hmt, hpd, hmd]
  by_cases h : CLI.final_price i = CLI.main_total_price i
  · simp only [if_pos h]
    decide
  · simp only [if_neg h]
    by_cases hc : CLI.potential_discount i > CLI.max_discount i
    · simp only [if_pos hc]
      decide
    · simp only [if_neg hc]
      decide

/-- C10: on every input, final price plus returned discount equals the
VAT-inclusive current total price, in all three discount branches. -/
theorem final_plus_discount_eq_current_total (i : PriceInput) :
    (CLI.calculate_apartment_price i).final_price_including_vat +
      (CLI.calculate_apartment_price i).discount_amount = CLI.current_total_price i := by
  show CLI.final_price i + CLI.actual_discount i = CLI.current_total_price i
  unfold CLI.actual_discount
  by_cases h : CLI.final_price i = CLI.main_total_price i
  · rw [if_pos h, h]
    ring
  · rw [if_neg h]
    have hfd : CLI.final_price i = CLI.final_discounted_price i := by
      rcases min_cases (CLI.final_discounted_price i) (CLI.main_total_price i) with
        ⟨h1, _⟩ | ⟨h1, _⟩
      · exact h1
      · exact absurd h1 h
    rw [hfd]
    unfold CLI.final_discounted_price CLI.actual_discount_pre
    by_cases hc : CLI.potential_discount i > CLI.max_discount i
    · rw [if_pos hc, if_pos hc]
      ring
    · rw [if_neg hc, if_neg hc]
      unfold CLI.potential_discount
      ring

end Mishtaken
